import Mathlib

/-!
Verification development for the user-account backend: password hashing
(`src/utils/password.js` over the bcryptjs library), the JWT lifecycle
(`src/utils/token.js` over the jsonwebtoken library and `src/config/jwt.js`),
and the login / forgot-password / reset-password workflow of the user service
layer, together with the `user` model (`src/model/user.js`).

Embedding conventions:
* JS strings are `List Char`; JS objects are association lists in which the
  LAST binding for a key wins (so object spread is list append).
* JS exceptions are `Except` with the thrown message as the error value.
* Timestamps (`Date.now()`, `exp`, …) are naturals counting milliseconds or
  seconds, as in the source; every run considered has nonnegative times.
* Randomness (`Math.random()`, bcrypt salt bytes) is passed explicitly as an
  argument.
* The bcrypt Blowfish core and the base64 round-trip of bcryptjs are abstract
  parameters (`cipher`, `canon`) constrained only by the output-length and
  canonical-salt facts the library guarantees; all parsing, validation and
  digest assembly around them follows the bcryptjs source.
-/

namespace FwSpec

/-- JS strings are modelled as lists of characters. -/
abbrev Str := List Char

/-- Convert a Lean string literal to the `Str` model. -/
def strL (s : String) : Str := s.toList

/-- Test whether the second list starts with the first (JS `String.startsWith`
restricted to the character-list model). -/
def hasPre : Str → Str → Bool
  | [], _ => true
  | _ :: _, [] => false
  | p :: ps, c :: cs => if p = c then hasPre ps cs else false

/-- The character for a decimal digit `n % 10`, as JS `Number.prototype.toString`
renders digits. -/
def digitChar (n : Nat) : Char := Char.ofNat ('0'.toNat + n % 10)

/-- Fuel-driven decimal rendering of a natural number (most significant digit
first); `natToStr` supplies enough fuel. -/
def natToStrGo : Nat → Nat → Str
  | 0, _ => []
  | f + 1, n => if n < 10 then [digitChar n] else natToStrGo f (n / 10) ++ [digitChar (n % 10)]

/-- Decimal rendering of a natural number, the model of JS
`Number.prototype.toString()` for nonnegative integers. -/
def natToStr (n : Nat) : Str := natToStrGo (n + 1) n

/-- Numeric value of one digit character. -/
def charDigitVal (c : Char) : Nat := c.toNat - '0'.toNat

/-- Numeric value of a decimal digit string. -/
def digsVal (s : Str) : Nat := s.foldl (fun a c => a * 10 + charDigitVal c) 0

/-! ## Password hashing: `src/utils/password.js` over bcryptjs

The bcryptjs functions used by the repository are `genSaltSync(10)`,
`hashSync(password, salt)` and `compareSync(password, hash)`. Their control
flow (salt validation, digest assembly, the length-60 gate in `compareSync`)
is embedded from the library source; the Blowfish-based encoding of the hash
body is the abstract `cipher : Str → Option Nat → Str → Str` (password bytes,
parsed cost — `none` models `NaN` —, raw salt characters), and the
base64 decode/encode round trip applied to the salt characters is the
abstract `canon : Str → Str`. bcryptjs guarantees `(cipher _ _ _).length = 31`
and `canon r = r` for the canonical 22-character salts `genSaltSync` emits;
theorems take exactly those facts as hypotheses. -/

/-- JS `charAt`: `none` models the empty string returned out of range. -/
def charAt (s : Str) (i : Nat) : Option Char := s.get? i

/-- JS `parseInt` on a single character: `none` models `NaN`. -/
def parseDigit : Option Char → Option Nat
  | some c => if '0' ≤ c ∧ c ≤ '9' then some (charDigitVal c) else none
  | none => none

/-- Rendering of the bcrypt cost in the produced digest: `rounds.toString()`
preceded by `"0"` when below ten; `none` (NaN) prints as `"NaN"`. -/
def roundsStr : Option Nat → Str
  | none => strL "NaN"
  | some r => (if r < 10 then ['0'] else []) ++ natToStr r

/-- Model of bcryptjs `genSaltSync(10)`: the fixed revision/cost header
`$2a$10$` followed by the 22 base64 characters encoding the fresh random
salt bytes; the randomness is the explicit argument `r`. -/
def genSaltChars (r : Str) : Str := strL "$2a$10$" ++ r

/-- Model of bcryptjs `hashSync(s, salt)` (the internal `_hash`): validates the
salt version, revision and cost exactly as the library does (throwing, i.e.
returning `.error`, on a salt that does not parse), extracts the 22 raw salt
characters, and assembles the digest from the pieces `$2`, minor revision,
`$`, two-digit cost, `$`, `canon(salt)` and `cipher(password, cost, salt)`. A null byte is appended to the password for
revisions `a` and later, as in the library. -/
def bcHashSync (cipher : Str → Option Nat → Str → Str) (canon : Str → Str)
    (s salt : Str) : Except Str Str :=
  if charAt salt 0 ≠ some '$' ∨ charAt salt 1 ≠ some '2' then
    .error (strL "Invalid salt version")
  else
    let cont : Option Char → Nat → Except Str Str := fun minor offset =>
      if (match charAt salt (offset + 2) with
          | some c => decide ('$' < c)
          | none => false) then
        .error (strL "Missing salt rounds")
      else
        let rounds : Option Nat :=
          match parseDigit (charAt salt offset), parseDigit (charAt salt (offset + 1)) with
          | some r1, some r2 => some (r1 * 10 + r2)
          | _, _ => none
        let realSalt : Str := ((salt.drop (offset + 3)).take 22)
        let s2 : Str := s ++ (match minor with | some _ => [Char.ofNat 0] | none => [])
        .ok (strL "$2" ++ (match minor with | some c => [c] | none => []) ++ ['$'] ++
          roundsStr rounds ++ ['$'] ++ canon realSalt ++ cipher s2 rounds realSalt)
    if charAt salt 2 = some '$' then
      cont none 3
    else
      match charAt salt 2 with
      | some c =>
        if (c ≠ 'a' ∧ c ≠ 'b' ∧ c ≠ 'y') ∨ charAt salt 3 ≠ some '$' then
          .error (strL "Invalid salt revision")
        else cont (some c) 4
      | none => .error (strL "Invalid salt revision")

/-- Model of bcryptjs `compareSync(s, hash)`: any string whose length is not
60 yields `false`; otherwise the hash is recomputed from the first 29
characters (`hash.substr(0, hash.length - 31)`, the embedded salt) and
compared for equality. A 60-character string whose salt section does not
parse makes the recomputation throw, and `compareSync` propagates. -/
def bcCompareSync (cipher : Str → Option Nat → Str → Str) (canon : Str → Str)
    (s hash : Str) : Except Str Bool :=
  if hash.length ≠ 60 then .ok false
  else
    match bcHashSync cipher canon s (hash.take (hash.length - 31)) with
    | .error e => .error e
    | .ok recomputed => .ok (if recomputed = hash then true else false)

/-- `encryptPassword` of `src/utils/password.js`: `bcrypt.hashSync(password,
bcrypt.genSaltSync(10))`, with the fresh salt randomness `r` explicit. -/
def encryptPassword (cipher : Str → Option Nat → Str → Str) (canon : Str → Str)
    (password r : Str) : Except Str Str :=
  bcHashSync cipher canon password (genSaltChars r)

/-- `verifyPassword` of `src/utils/password.js`: `bcrypt.compareSync(password,
hash)`. -/
def verifyPassword (cipher : Str → Option Nat → Str → Str) (canon : Str → Str)
    (password hash : Str) : Except Str Bool :=
  bcCompareSync cipher canon password hash

/-- Decidable equality for `Except`, used to evaluate results at concrete
inputs. -/
instance {ε α : Type} [DecidableEq ε] [DecidableEq α] : DecidableEq (Except ε α) := fun x y =>
  match x, y with
  | .error a, .error b =>
    if h : a = b then .isTrue (by rw [h]) else .isFalse (by intro hh; cases hh; exact h rfl)
  | .ok a, .ok b =>
    if h : a = b then .isTrue (by rw [h]) else .isFalse (by intro hh; cases hh; exact h rfl)
  | .error _, .ok _ => .isFalse (by intro hh; cases hh)
  | .ok _, .error _ => .isFalse (by intro hh; cases hh)

/-- A concrete stand-in for the abstract bcrypt Blowfish core, used to
evaluate the embedding at concrete inputs: constant 31-character output. -/
def cipherFix : Str → Option Nat → Str → Str := fun _ _ _ => List.replicate 31 'h'

/-- A concrete stand-in for the bcryptjs base64 round trip on canonical
salts, used to evaluate the embedding at concrete inputs. -/
def canonFix : Str → Str := id

/-! ## JS values and objects

The token utility receives arbitrary JS values (`generateToken`'s payload
check) and JWT payloads are JS objects. Objects are association lists in
which the last binding for a key wins; object spread is then list append and
property deletion is filtering. Every value the embedded flows store in an
object field or a database column is a primitive (numbers here are the
nonnegative integers these flows use), so object fields carry `JSPrim`;
`JSVal` is the top-level argument universe with arrays and objects. -/

/-- A primitive JS value. -/
inductive JSPrim where
  | pNull
  | pUndef
  | pBool (b : Bool)
  | pNum (n : Nat)
  | pStr (s : Str)
deriving DecidableEq

/-- A JS value as inspected by `generateToken`'s payload guard: a primitive,
an array, or a plain object whose fields hold primitives. -/
inductive JSVal where
  | prim (p : JSPrim)
  | vArr (elems : List JSPrim)
  | vObj (fields : List (Str × JSPrim))
deriving DecidableEq

/-- A JS object: association list, last binding wins. -/
abbrev Obj := List (Str × JSPrim)

/-- JS falsiness (`!v`) for the values this code passes around; `NaN` never
reaches these checks. -/
def jsFalsy : JSVal → Bool
  | .prim .pNull => true
  | .prim .pUndef => true
  | .prim (.pBool b) => !b
  | .prim (.pNum n) => if n = 0 then true else false
  | .prim (.pStr s) => if s = [] then true else false
  | .vArr _ => false
  | .vObj _ => false

/-- Whether `typeof v === 'object'` holds; note the JS quirk that
`typeof null` is `'object'`, and arrays are objects. -/
def jsTypeofObject : JSVal → Bool
  | .prim .pNull => true
  | .vArr _ => true
  | .vObj _ => true
  | _ => false

/-- JS `Array.isArray`. -/
def jsIsArray : JSVal → Bool
  | .vArr _ => true
  | _ => false

/-- JS strict equality `===` between primitives: values of different types
are never strictly equal. -/
def jsStrictEq : JSPrim → JSPrim → Bool
  | .pNull, .pNull => true
  | .pUndef, .pUndef => true
  | .pBool a, .pBool b => if a = b then true else false
  | .pNum a, .pNum b => if a = b then true else false
  | .pStr a, .pStr b => if a = b then true else false
  | _, _ => false

/-- Last-wins lookup in a JS object. -/
def objGet (l : Obj) (k : Str) : Option JSPrim :=
  match l with
  | [] => none
  | (k2, v) :: rest =>
    match objGet rest k with
    | some v2 => some v2
    | none => if k2 = k then some v else none

/-- JS `delete o[k]`: every binding for `k` is removed. -/
def objDel (l : Obj) (k : Str) : Obj :=
  l.filter fun p => if p.1 = k then false else true

/-- Delete each key of `ks` in turn. -/
def objDelKeys (ks : List Str) (l : Obj) : Obj :=
  ks.foldl objDel l

/-! ## Token issuance / verification: `src/utils/token.js`

The jsonwebtoken library is embedded symbolically: a well-formed serialized
JWT is its algorithm, payload object and signature; the HMAC signature is
modelled as the signing secret and algorithm (a verifier's signature check
succeeds exactly when the token was signed with the verifier's secret and
algorithm — symbolic unforgeability of HMAC-SHA256). Any other byte string
on the wire is `junk`. The configuration is `src/config/jwt.js` with its
defaults: lifetime 24h, issuer `cfc_app`, audience `cfc_app_users`,
algorithms `['HS256']`, `ignoreExpiration` false. -/

/-- A JWT header algorithm. -/
inductive Alg where
  | hs256
  | algNone
  | algOther
deriving DecidableEq

/-- The symbolic signature over a token: the secret and algorithm it was
produced with. -/
inductive Sig where
  | signed (secret : Str) (alg : Alg)
deriving DecidableEq

/-- A structurally well-formed serialized JWT. -/
structure JwtTok where
  alg : Alg
  payload : Obj
  sig : Sig
deriving DecidableEq

/-- A string offered as a token on the wire: a well-formed JWT or garbage
that fails JWS parsing. -/
inductive WireTok where
  | jwt (t : JwtTok)
  | junk (raw : Str)
deriving DecidableEq

/-- The argument given to `verifyToken`/`refreshToken`: `badArg` models a
non-string or empty value (rejected by the `!token || typeof token !==
'string'` guard); otherwise a wire token, with `bearer` recording whether
the textual `Bearer ` marker was present (it is stripped either way). -/
inductive TokArg where
  | badArg
  | tokStr (bearer : Bool) (w : WireTok)
deriving DecidableEq

/-- The JWT configuration of `src/config/jwt.js` (environment defaults):
`expSec` is the configured lifetime in seconds (`24h` = 86400). -/
structure JwtCfg where
  secret : Str
  expSec : Nat
  iss : Str
  aud : Str
deriving DecidableEq

/-- A jsonwebtoken verification failure, before `verifyToken`'s
classification: a `JsonWebTokenError` with its message, a
`TokenExpiredError` carrying `expiredAt` (milliseconds), or a
`NotBeforeError` carrying the not-before instant (milliseconds). -/
inductive VErr where
  | jwtErr (msg : Str)
  | expiredErr (expMs : Nat)
  | nbfErr (nbfMs : Nat)
deriving DecidableEq

/-- Model of `jwt.verify(pureToken, secret, {algorithms, issuer, audience,
ignoreExpiration})` in the order the library checks: JWS structure, header
algorithm against the allowed list, signature, `nbf`, `exp`
(`clockTimestamp >= exp`), audience, issuer. -/
def jwtVerify (cfg : JwtCfg) (w : WireTok) (nowMs : Nat) : Except VErr Obj :=
  match w with
  | .junk _ => .error (.jwtErr (strL "jwt malformed"))
  | .jwt t =>
    if t.alg ≠ Alg.hs256 then .error (.jwtErr (strL "invalid algorithm"))
    else if t.sig ≠ Sig.signed cfg.secret t.alg then .error (.jwtErr (strL "invalid signature"))
    else
      match objGet t.payload (strL "nbf") with
      | some (.pNum nbf) =>
        if nowMs / 1000 < nbf then .error (.nbfErr (nbf * 1000)) else
        jwtVerifyClaims cfg t.payload nowMs
      | some _ => .error (.jwtErr (strL "invalid nbf value"))
      | none => jwtVerifyClaims cfg t.payload nowMs
where
  /-- The `exp`/`aud`/`iss` claim checks that follow the signature check. -/
  jwtVerifyClaims (cfg : JwtCfg) (payload : Obj) (nowMs : Nat) : Except VErr Obj :=
    match objGet payload (strL "exp") with
    | some (.pNum exp) =>
      if exp ≤ nowMs / 1000 then .error (.expiredErr (exp * 1000)) else
      jwtVerifyAudIss cfg payload
    | some _ => .error (.jwtErr (strL "invalid exp value"))
    | none => jwtVerifyAudIss cfg payload
  /-- Audience then issuer checks. -/
  jwtVerifyAudIss (cfg : JwtCfg) (payload : Obj) : Except VErr Obj :=
    if objGet payload (strL "aud") ≠ some (.pStr cfg.aud) then
      .error (.jwtErr (strL "jwt audience invalid"))
    else if objGet payload (strL "iss") ≠ some (.pStr cfg.iss) then
      .error (.jwtErr (strL "jwt issuer invalid"))
    else .ok payload

/-- Model of `jwt.sign(payload, secret, {expiresIn, algorithm, issuer,
audience})` for an object payload: rejects a payload already carrying `exp`
(conflict with `expiresIn`), `aud` or `iss` (conflicts with the audience /
issuer options), then prepends `iat = floor(now/1000)` (later bindings of
the payload override it, as `Object.assign({iat}, payload)` does) and
appends `exp = iat + lifetime`, the audience and the issuer. -/
def jwtSign (cfg : JwtCfg) (fields : Obj) (nowMs : Nat) : Except Str JwtTok :=
  let iat := nowMs / 1000
  if objGet fields (strL "exp") ≠ none then
    .error (strL "Bad options.expiresIn option the payload already has an exp property")
  else if objGet fields (strL "aud") ≠ none then
    .error (strL "Bad options.audience option. The payload already has an aud property")
  else if objGet fields (strL "iss") ≠ none then
    .error (strL "Bad options.issuer option. The payload already has an iss property")
  else
    .ok ⟨Alg.hs256,
      ((strL "iat", JSPrim.pNum iat) :: fields) ++
        [(strL "exp", JSPrim.pNum (iat + cfg.expSec)),
         (strL "aud", JSPrim.pStr cfg.aud),
         (strL "iss", JSPrim.pStr cfg.iss)],
      Sig.signed cfg.secret Alg.hs256⟩

/-- Model of `jwt.decode(pureToken)`: parses without verifying; garbage
yields `null`. -/
def jwtDecode : WireTok → Option Obj
  | .jwt t => some t.payload
  | .junk _ => none

/-! ### The V8 date round trip used by `refreshToken`

`verifyToken` renders the expiry into prose
(`Token已过期（过期时间：${error.expiredAt}）`) and `refreshToken` recovers
it with `new Date(message.match(/过期时间：(.*)/)[1])`. The captured text is
the date's `toString()` rendering followed by the full-width `）` that closes
the Chinese parenthesis. Modelled from the V8 runtime: `Date.prototype.
toString` renders the instant at second precision followed by a timezone
comment in ASCII parentheses, and the legacy date parser accepts its own
rendering but returns an Invalid Date (`NaN`, modelled `none`) for a string
with trailing garbage after the parenthesised comment — a garbage word after
the numbers makes the parse fail. Only those two properties are relied on;
the rendering itself is simplified to the epoch second followed by the
timezone comment. -/

/-- The fixed timezone tail of the modelled `Date.prototype.toString`
rendering, ending in an ASCII `)`. -/
def dateTail : Str := strL " GMT+0000 (Coordinated Universal Time)"

/-- Modelled `Date.prototype.toString`: the epoch second then the timezone
comment. -/
def dateToString (ms : Nat) : Str := natToStr (ms / 1000) ++ dateTail

/-- Modelled `new Date(string).getTime()` of the V8 legacy parser on the
strings this code builds: accepts exactly a nonempty digit run followed by
the timezone tail (its own rendering); anything else — in particular a
rendering with a trailing character after the comment — is an Invalid Date,
returned as `none` (`NaN`). -/
def jsParseDate (s : Str) : Option Nat :=
  if hasPre dateTail.reverse s.reverse then
    let pre := (s.reverse.drop dateTail.length).reverse
    if pre ≠ [] ∧ pre.all Char.isDigit then some (digsVal pre * 1000) else none
  else none

/-- JS `>` between a number and a possibly-NaN number: every comparison with
`NaN` is false. -/
def jsGtNaN (a : Nat) (b : Option Nat) : Bool :=
  match b with
  | none => false
  | some bb => if bb < a then true else false

/-- The tail of `hay` after the first occurrence of `needle`: the capture of
`hay.match(/needle(.*)/)[1]` for the newline-free strings matched here;
`none` when the pattern does not match (where the JS would then throw on
`null[1]`). -/
def subAfter (needle : Str) : Str → Option Str
  | [] => if needle = [] then some [] else none
  | c :: rest =>
    if hasPre needle (c :: rest) then some ((c :: rest).drop needle.length)
    else subAfter needle rest

/-- Result of `verifyToken`: `{valid: true, decoded}` or `{valid: false,
error: {type, message}}`. -/
inductive VerifyRes where
  | valid (decoded : Obj)
  | invalid (etype : Str) (emsg : Str)
deriving DecidableEq

/-- `generateToken(payload)` of `src/utils/token.js` with the default
options: rejects a falsy, non-object or array payload (note the guard does
not reject an empty object, `{}` being truthy), then signs with the
configured secret, lifetime, issuer and audience; a `jwt.sign` failure is
rethrown with the `Token生成失败：` wrapper. -/
def generateToken (cfg : JwtCfg) (payload : JSVal) (nowMs : Nat) : Except Str WireTok :=
  if jsFalsy payload || !jsTypeofObject payload || jsIsArray payload then
    .error (strL "生成Token失败：payload必须是非空的纯对象")
  else
    match payload with
    | .vObj fields =>
      match jwtSign cfg fields nowMs with
      | .ok t => .ok (.jwt t)
      | .error m => .error (strL "Token生成失败：" ++ m)
    | _ => .error (strL "生成Token失败：payload必须是非空的纯对象")

/-- `verifyToken(token)` of `src/utils/token.js`: guards the argument,
strips the optional `Bearer ` marker, runs `jwt.verify` with the configured
options and classifies failures: `TokenExpiredError` → `expired` with the
expiry rendered into the message; `JsonWebTokenError` whose message contains
`signature` → `invalid_signature`; other `JsonWebTokenError` →
`invalid_token` with the original message; `NotBeforeError` → `not_active`. -/
def verifyToken (cfg : JwtCfg) (arg : TokArg) (nowMs : Nat) : VerifyRes :=
  match arg with
  | .badArg => .invalid (strL "invalid_token") (strL "验证Token失败：token必须是非空字符串")
  | .tokStr _ w =>
    match jwtVerify cfg w nowMs with
    | .ok decoded => .valid decoded
    | .error (.expiredErr expMs) =>
      .invalid (strL "expired") (strL "Token已过期（过期时间：" ++ dateToString expMs ++ strL "）")
    | .error (.nbfErr nbfMs) =>
      .invalid (strL "not_active") (strL "Token尚未生效（生效时间：" ++ dateToString nbfMs ++ strL "）")
    | .error (.jwtErr m) =>
      if (subAfter (strL "signature") m).isSome then
        .invalid (strL "invalid_signature") (strL "Token签名无效（可能被篡改）")
      else
        .invalid (strL "invalid_token") m

/-- Result of `refreshToken`: `{success: true, newToken}`, `{success: false,
error: {type, message}}`, or a crash (`TypeError`) on the unreachable
`null[1]` path. -/
inductive RefreshRes where
  | refreshed (newTok : WireTok)
  | failed (etype : Str) (emsg : Str)
  | crashed
deriving DecidableEq

/-- The decode-merge-reissue tail of `refreshToken` (steps 3–5): decode the
old token without verification, spread the old payload under the new one,
reset `iat`, delete the built-in `iat`/`exp`/`iss`/`aud` fields, and issue a
fresh token via `generateToken`. -/
def refreshIssue (cfg : JwtCfg) (arg : TokArg) (newPayload : Obj) (nowMs : Nat) : RefreshRes :=
  match arg with
  | .badArg => .crashed
  | .tokStr _ w =>
    match jwtDecode w with
    | none => .failed (strL "decode_failed") (strL "刷新Token失败：原Token载荷解析失败")
    | some oldPayload =>
      let finalPayload :=
        objDelKeys [strL "iat", strL "exp", strL "iss", strL "aud"]
          (oldPayload ++ newPayload ++ [(strL "iat", JSPrim.pNum (nowMs / 1000))])
      match generateToken cfg (.vObj finalPayload) nowMs with
      | .ok t => .refreshed t
      | .error m => .failed (strL "generate_failed") (strL "刷新Token失败：" ++ m)

/-- `refreshToken(oldToken, newPayload)` of `src/utils/token.js`: verifies
the old token; a failure of any type other than `expired` is returned
wrapped; for an `expired` failure the expiry instant is recovered by
regex-matching the error message and re-parsed with `new Date`, and the
refresh is rejected with `refresh_expired` when now exceeds that instant
plus the 60 s `REFRESH_LEEWAY`; otherwise the token is decoded, payloads are
merged and a fresh token is issued. -/
def refreshToken (cfg : JwtCfg) (arg : TokArg) (newPayload : Obj) (nowMs : Nat) : RefreshRes :=
  match verifyToken cfg arg nowMs with
  | .valid _ => refreshIssue cfg arg newPayload nowMs
  | .invalid etype emsg =>
    if etype ≠ strL "expired" then
      .failed etype (strL "无法刷新Token：" ++ emsg)
    else
      match subAfter (strL "过期时间：") emsg with
      | none => .crashed
      | some captured =>
        let expiredAt := jsParseDate captured
        let leewayEnd := expiredAt.map (· + 60 * 1000)
        if jsGtNaN nowMs leewayEnd then
          .failed (strL "refresh_expired") (strL "Token刷新宽限期已过，请重新登录")
        else refreshIssue cfg arg newPayload nowMs

/-- `decodeToken(token)` of `src/utils/token.js`: parse without verifying,
`null` for a bad argument or unparsable token. -/
def decodeToken (arg : TokArg) : Option Obj :=
  match arg with
  | .badArg => none
  | .tokStr _ w => jwtDecode w

/-! ## The user service layer and the `user` model

From the service file: `loginUser`, `generateVerifyCode`, `forgetPassword`,
`resetPassword`, and the module-level `verifyCodeCache` (a JS `Map`). From
`src/model/user.js`: `user_status` is the ENUM `('0','1')` — a STRING read
back from the database — and `validatePassword` is `bcrypt.compareSync`
against the stored hash; the `user_password` setter hashes with a fresh
salt. The database is a list of rows; `findOne` takes the first match.
Transactions roll the database back on a thrown error; the code cache is a
plain in-process `Map` and is never rolled back. Mail transport is a flag
`mailOk` (does the send succeed) plus the list of attempted sends. -/

/-- JS `\s` (the whitespace class of the email regex). -/
def isJsSpace (c : Char) : Bool :=
  if c = ' ' ∨ c = '\t' ∨ c = '\n' ∨ c = '\r' ∨ c.toNat = 11 ∨ c.toNat = 12 then true
  else if c.toNat = 0xa0 ∨ c.toNat = 0x1680 ∨ (0x2000 ≤ c.toNat ∧ c.toNat ≤ 0x200a) ∨
      c.toNat = 0x2028 ∨ c.toNat = 0x2029 ∨ c.toNat = 0x202f ∨ c.toNat = 0x205f ∨
      c.toNat = 0x3000 ∨ c.toNat = 0xfeff then true
  else false

/-- A character matched by `[^\s@]`. -/
def isEmailChar (c : Char) : Bool :=
  if c = '@' then false else !isJsSpace c

/-- The service's email test `/^[^\s@]+@[^\s@]+\.[^\s@]+$/`: a nonempty
`[^\s@]` run, `@`, then a tail of `[^\s@]` characters that decomposes as
`B.C` with `B`, `C` nonempty — i.e. the tail has an interior dot. -/
def validEmail (s : Str) : Bool :=
  let a := s.takeWhile fun c => if c = '@' then false else true
  match s.drop a.length with
  | [] => false
  | _ :: tail =>
    (if a = [] then false else true) && a.all isEmailChar &&
    (if tail = [] then false else true) && tail.all isEmailChar &&
    ((tail.drop 1).dropLast.contains '.')

/-- An entry of `verifyCodeCache`: `{code, expireTime, userId}`. -/
structure CacheEntry where
  code : Str
  expireTime : Nat
  userId : Nat
deriving DecidableEq

/-- The `verifyCodeCache` Map: association list, last binding wins. -/
abbrev Cache := List (Str × CacheEntry)

/-- `Map.get`. -/
def cacheGet (c : Cache) (k : Str) : Option CacheEntry :=
  match c with
  | [] => none
  | (k2, v) :: rest =>
    match cacheGet rest k with
    | some v2 => some v2
    | none => if k2 = k then some v else none

/-- `Map.set`: the new binding wins over any earlier one. -/
def cacheSet (c : Cache) (k : Str) (e : CacheEntry) : Cache := c ++ [(k, e)]

/-- `Map.delete`. -/
def cacheDel (c : Cache) (k : Str) : Cache :=
  c.filter fun p => if p.1 = k then false else true

/-- A `user` table row as the service reads it back (password included only
on the opt-in paths); `user_status` is the ENUM string column of
`src/model/user.js`, hence a `JSPrim` that is `pStr "0"` or `pStr "1"` for
rows that went through the database. -/
structure UserRow where
  user_id : Nat
  user_name : Str
  user_password : Str
  user_email : Str
  user_status : JSPrim
deriving DecidableEq

/-- The user table. -/
abbrev Db := List UserRow

/-- `User.findOne({where: {[Op.or]: [{user_name}, {user_email: user_name}]}})`. -/
def findByNameOrEmail (db : Db) (ident : Str) : Option UserRow :=
  db.find? fun u => if u.user_name = ident ∨ u.user_email = ident then true else false

/-- `User.findOne({where: {user_email}})`. -/
def findByEmail (db : Db) (email : Str) : Option UserRow :=
  db.find? fun u => if u.user_email = email then true else false

/-- `User.findByPk(id)`. -/
def findById (db : Db) (uid : Nat) : Option UserRow :=
  db.find? fun u => if u.user_id = uid then true else false

/-- What `loginUser` returns on success (the sensitive-field filtering of
the returned user is kept to its identifying fields): the user and the
`role_id` of the first matching `RoleUser` row, `null` when none. -/
structure LoginOk where
  user_id : Nat
  role_id : Option Nat
deriving DecidableEq

/-- `loginUser(user_name, user_password)` of the service layer: empty-input
guard; lookup by username or email; the disabled check compares the ENUM
string `user_status` with the NUMBER `0` under strict equality; then
`validatePassword` (bcrypt compare against the stored hash, a thrown error
propagating with its message); the no-user and wrong-password failures throw
the same message. -/
def loginUser (cipher : Str → Option Nat → Str → Str) (canon : Str → Str)
    (db : Db) (roles : List (Nat × Nat)) (uname pw : Str) : Except Str LoginOk :=
  if uname = [] ∨ pw = [] then .error (strL "用户名/密码不能为空")
  else
    match findByNameOrEmail db uname with
    | none => .error (strL "用户名或密码错误")
    | some u =>
      if jsStrictEq u.user_status (.pNum 0) then .error (strL "账号已被禁用，请联系管理员")
      else
        match bcCompareSync cipher canon pw u.user_password with
        | .error e => .error e
        | .ok false => .error (strL "用户名或密码错误")
        | .ok true =>
          .ok ⟨u.user_id,
            (roles.find? fun p => if p.1 = u.user_id then true else false).map Prod.snd⟩

/-- The floor value `Math.floor(100000 + Math.random() * 900000)` computed by
`generateVerifyCode`, with the `Math.random()` draw `q ∈ [0,1)` explicit. -/
def verifyCodeNum (q : ℚ) : Nat := (⌊(100000 : ℚ) + q * 900000⌋).toNat

/-- `generateVerifyCode()` of the service layer: the decimal rendering of
the drawn value. -/
def generateVerifyCode (q : ℚ) : Str := natToStr (verifyCodeNum q)

/-- A mail handed to the transport (the verification-code mails carry the
code). -/
structure SentMail where
  mailTo : Str
  code : Str
deriving DecidableEq

/-- A service success value `{success: true, message}`. -/
structure SvcOk where
  message : Str
deriving DecidableEq

/-- `forgetPassword(user_email)` of the service layer, returning the result
together with the cache after the call and the attempted code mails. Email
format guard; an unregistered email SKIPS issuance and returns the same
`验证码已发送` success (anti-enumeration); a registered one stores
`{code, now + 5 min, user_id}` under `reset_<email>` (overwriting any prior
binding) and mails the code; a failed send throws. -/
def forgetPassword (db : Db) (cache : Cache) (q : ℚ) (nowMs : Nat) (mailOk : Bool)
    (email : Str) : Except Str SvcOk × Cache × List SentMail :=
  if validEmail email = false then (.error (strL "邮箱格式不合法"), cache, [])
  else
    match findByEmail db email with
    | none => (.ok ⟨strL "验证码已发送至您的邮箱，请查收"⟩, cache, [])
    | some u =>
      let code := generateVerifyCode q
      let cache2 := cacheSet cache (strL "reset_" ++ email) ⟨code, nowMs + 5 * 60 * 1000, u.user_id⟩
      if mailOk then (.ok ⟨strL "验证码已发送至您的邮箱，请查收"⟩, cache2, [⟨email, code⟩])
      else (.error (strL "验证码邮件发送失败：发送失败"), cache2, [⟨email, code⟩])

/-- `'；'.join` of the collected validation errors. -/
def joinErrs (l : List Str) : Str := List.intercalate (strL "；") l

/-- `resetPassword(user_email, verifyCode, newPassword)` of the service
layer, returning the result, the cache and the database after the call.
Validation errors are joined and thrown; a missing entry throws
`验证码已过期或未发送` (CodeNotFound); an entry with `expireTime <
Date.now()` is DELETED and `验证码已过期` thrown (CodeExpired, the Map
delete surviving the transaction rollback); a code mismatch throws
`验证码错误` with the entry retained (CodeMismatch); on a match the bound
user's password is rehashed (model-layer setter, fresh salt `rSalt`), the
entry is deleted and the transaction commits. The reset-success mail is
non-fatal and does not affect the result. -/
def resetPassword (cipher : Str → Option Nat → Str → Str) (canon : Str → Str)
    (db : Db) (cache : Cache) (nowMs : Nat) (rSalt : Str)
    (email code newPw : Str) : Except Str SvcOk × Cache × Db :=
  let errs :=
    (if validEmail email = false then [strL "邮箱格式不合法"] else []) ++
    (if code = [] ∨ code.length ≠ 6 then [strL "验证码格式错误（6位数字）"] else []) ++
    (if newPw = [] ∨ newPw.length < 6 then [strL "新密码长度不能少于6位"] else [])
  if errs = [] then
    let key := strL "reset_" ++ email
    match cacheGet cache key with
    | none => (.error (strL "验证码已过期或未发送，请重新获取"), cache, db)
    | some e =>
      if e.expireTime < nowMs then
        (.error (strL "验证码已过期，请重新获取"), cacheDel cache key, db)
      else if e.code ≠ code then
        (.error (strL "验证码错误，请重新输入"), cache, db)
      else
        match findById db e.userId with
        | none => (.error (strL "用户不存在"), cache, db)
        | some _ =>
          match encryptPassword cipher canon newPw rSalt with
          | .error m => (.error m, cache, db)
          | .ok h2 =>
            (.ok ⟨strL "密码重置成功，请使用新密码登录"⟩, cacheDel cache key,
             db.map fun v => if v.user_id = e.userId then { v with user_password := h2 } else v)
  else (.error (joinErrs errs), cache, db)

/-! ## Concrete instances used to evaluate the embedding at specific inputs -/

/-- A concrete password-dependent stand-in for the bcrypt core: 31 copies of
the password's first character. -/
def cipherHead : Str → Option Nat → Str → Str :=
  fun s _ _ => List.replicate 31 (s.headD 'x')

/-- The digest `cipherHead` produces for the password `admin123` under the
all-`a` salt. -/
def hashAdmin : Str := strL "$2a$10$" ++ List.replicate 22 'a' ++ List.replicate 31 'a'

/-- The digest `cipherHead` produces for the password `123456` under the
all-`a` salt. -/
def hashBob : Str := strL "$2a$10$" ++ List.replicate 22 'a' ++ List.replicate 31 '1'

/-- A user table whose only account is DISABLED: `user_status` is the ENUM
string `'0'`, exactly what `src/model/user.js` stores and what sequelize
reads back. -/
def dbDisabled : Db :=
  [⟨1, strL "admin", hashAdmin, strL "admin@cfc-app.com", .pStr (strL "0")⟩]

/-- A user table with one enabled account `bob` (password `123456`). -/
def dbBob : Db := [⟨1, strL "bob", hashBob, strL "a@b.com", .pStr (strL "1")⟩]

/-- The JWT configuration with the `src/config/jwt.js` defaults and a
concrete secret. -/
def cfg0 : JwtCfg := ⟨strL "test_secret", 86400, strL "cfc_app", strL "cfc_app_users"⟩

/-- The token `generateToken` issues under `cfg0` at time 0 for the claims
`{user_id: 1}`: expiry second 86400. -/
def tok0 : JwtTok :=
  ⟨Alg.hs256,
   [(strL "iat", .pNum 0), (strL "user_id", .pNum 1),
    (strL "exp", .pNum 86400), (strL "aud", .pStr (strL "cfc_app_users")),
    (strL "iss", .pStr (strL "cfc_app"))],
   .signed (strL "test_secret") Alg.hs256⟩

/-- The token `refreshToken` mints when handed `tok0` at `t = 90000000` ms —
one hour after `tok0`'s expiry instant `86400000` ms. -/
def tokNew0 : JwtTok :=
  ⟨Alg.hs256,
   [(strL "iat", .pNum 90000), (strL "user_id", .pNum 1),
    (strL "exp", .pNum (90000 + 86400)), (strL "aud", .pStr (strL "cfc_app_users")),
    (strL "iss", .pStr (strL "cfc_app"))],
   .signed (strL "test_secret") Alg.hs256⟩

/-- The token `generateToken` signs for the EMPTY claims object under `cfg0`
at time 0: only the standard fields. -/
def tokEmpty0 : JwtTok :=
  ⟨Alg.hs256,
   [(strL "iat", .pNum 0), (strL "exp", .pNum 86400),
    (strL "aud", .pStr (strL "cfc_app_users")), (strL "iss", .pStr (strL "cfc_app"))],
   .signed (strL "test_secret") Alg.hs256⟩

/-- A cache holding one live code `123456` for `a@b.com`, expiring at
`301000` ms, bound to user 1. -/
def cacheBob : Cache := [(strL "reset_" ++ strL "a@b.com", ⟨strL "123456", 301000, 1⟩)]

/-! ## General lemmas about the embedded operations -/

/-- `hashSync` on a salt of the shape `genSaltSync` produces never throws:
the digest is the header, the canonicalised 22 raw salt characters and the
cipher output. -/
theorem bcHashSync_salt_shape (cipher : Str → Option Nat → Str → Str) (canon : Str → Str)
    (p r : Str) :
    bcHashSync cipher canon p (strL "$2a$10$" ++ r) =
      .ok (strL "$2a$10$" ++
        (canon (r.take 22) ++ cipher (p ++ [Char.ofNat 0]) (some 10) (r.take 22))) := rfl

/-- `encryptPassword` never throws, for any salt randomness. -/
theorem encryptPassword_isOk (cipher : Str → Option Nat → Str → Str) (canon : Str → Str)
    (p r : Str) :
    encryptPassword cipher canon p r =
      .ok (strL "$2a$10$" ++
        (canon (r.take 22) ++ cipher (p ++ [Char.ofNat 0]) (some 10) (r.take 22))) := rfl

/-- The digest `encryptPassword` produces from a canonical 22-character salt
embeds that salt verbatim after the 7-character header. -/
theorem encryptPassword_eq (cipher : Str → Option Nat → Str → Str) (canon : Str → Str)
    (p r : Str) (hr : r.length = 22) (hc : canon r = r) :
    encryptPassword cipher canon p r =
      .ok (strL "$2a$10$" ++ (r ++ cipher (p ++ [Char.ofNat 0]) (some 10) r)) := by
  have ht : r.take 22 = r := by rw [← hr]; exact List.take_length r
  have h0 : encryptPassword cipher canon p r =
      bcHashSync cipher canon p (strL "$2a$10$" ++ r) := rfl
  rw [h0, bcHashSync_salt_shape, ht, hc]

/-- `compareSync` recomputes the digest from its embedded salt, so a digest
produced from the same password verifies. -/
theorem verifyPassword_of_digest (cipher : Str → Option Nat → Str → Str) (canon : Str → Str)
    (p r : Str) (hr : r.length = 22) (hc : canon r = r)
    (hC : (cipher (p ++ [Char.ofNat 0]) (some 10) r).length = 31) :
    verifyPassword cipher canon p
      (strL "$2a$10$" ++ (r ++ cipher (p ++ [Char.ofNat 0]) (some 10) r)) = .ok true := by
  have ht : r.take 22 = r := by rw [← hr]; exact List.take_length r
  have hlen : (strL "$2a$10$" ++ (r ++ cipher (p ++ [Char.ofNat 0]) (some 10) r)).length = 60 := by
    rw [List.length_append, List.length_append, hr, hC]; rfl
  have h29 : (strL "$2a$10$" ++ r).length = 29 := by rw [List.length_append, hr]; rfl
  have htake : (strL "$2a$10$" ++ (r ++ cipher (p ++ [Char.ofNat 0]) (some 10) r)).take (60 - 31) =
      strL "$2a$10$" ++ r := by
    rw [← List.append_assoc]
    exact List.take_left' h29
  unfold verifyPassword bcCompareSync
  rw [hlen, htake, if_neg (by simp), bcHashSync_salt_shape, ht, hc]
  show Except.ok (if strL "$2a$10$" ++ (r ++ cipher (p ++ [Char.ofNat 0]) (some 10) r) =
      strL "$2a$10$" ++ (r ++ cipher (p ++ [Char.ofNat 0]) (some 10) r) then true else false) =
    Except.ok true
  rw [if_pos rfl]

/-- The decimal value of a digit character produced by `digitChar`. -/
theorem charDigitVal_digitChar (d : Nat) (h : d < 10) :
    charDigitVal (digitChar d) = d % 10 := by
  interval_cases d <;> decide

/-- Appending one digit multiplies the numeric value by ten. -/
theorem digsVal_append_digit (xs : Str) (c : Char) :
    digsVal (xs ++ [c]) = 10 * digsVal xs + charDigitVal c := by
  unfold digsVal
  rw [List.foldl_append]
  simp [List.foldl]
  ring

/-- The fuel-driven rendering round-trips through `digsVal` whenever the
fuel covers the number. -/
theorem digsVal_natToStrGo (f : Nat) : ∀ n : Nat, n < 10 ^ f →
    digsVal (natToStrGo f n) = n := by
  induction f with
  | zero =>
    intro n h
    simp at h
    subst h
    decide
  | succ f ih =>
    intro n h
    unfold natToStrGo
    by_cases hn : n < 10
    · rw [if_pos hn]
      have h2 : digsVal [digitChar n] = charDigitVal (digitChar n) := by
        simp [digsVal, List.foldl]
      rw [h2, charDigitVal_digitChar n hn]
      omega
    · rw [if_neg hn]
      rw [digsVal_append_digit]
      have hdiv : n / 10 < 10 ^ f := by
        have hp : n < 10 ^ f * 10 := by
          rw [pow_succ] at h
          omega
        omega
      rw [ih (n / 10) hdiv, charDigitVal_digitChar (n % 10) (Nat.mod_lt n (by omega))]
      omega

/-- The decimal rendering of a natural number round-trips. -/
theorem digsVal_natToStr (n : Nat) : digsVal (natToStr n) = n := by
  unfold natToStr
  exact digsVal_natToStrGo (n + 1) n (lt_of_lt_of_le (Nat.lt_pow_self (by omega) n)
    (Nat.pow_le_pow_right (by omega) (by omega)))

/-- Bounds of the drawn verification-code value: `Math.floor(100000 +
q * 900000)` lies in `[100000, 999999]` for `q ∈ [0, 1)`. -/
theorem verifyCodeNum_bounds (q : ℚ) (h0 : 0 ≤ q) (h1 : q < 1) :
    100000 ≤ verifyCodeNum q ∧ verifyCodeNum q ≤ 999999 := by
  unfold verifyCodeNum
  have hlb : (100000 : ℤ) ≤ ⌊(100000 : ℚ) + q * 900000⌋ := by
    apply Int.le_floor.mpr
    push_cast
    nlinarith
  have hub : ⌊(100000 : ℚ) + q * 900000⌋ < 1000000 := by
    apply Int.floor_lt.mpr
    push_cast
    nlinarith
  constructor <;> omega

/-- A `Map.set` binding wins every later lookup of its key, whatever was
stored before. -/
theorem cacheGet_set (c : Cache) (k : Str) (e : CacheEntry) :
    cacheGet (cacheSet c k e) k = some e := by
  induction c with
  | nil => simp [cacheSet, cacheGet]
  | cons p rest ih =>
    have ih2 : cacheGet (rest ++ [(k, e)]) k = some e := ih
    show (match cacheGet (rest ++ [(k, e)]) k with
      | some v2 => some v2
      | none => if p.1 = k then some p.2 else none) = some e
    rw [ih2]

/-- After a `Map.delete` the key is gone. -/
theorem cacheGet_del (c : Cache) (k : Str) : cacheGet (cacheDel c k) k = none := by
  induction c with
  | nil => rfl
  | cons p rest ih =>
    by_cases h : p.1 = k
    · simpa [cacheDel, List.filter_cons, h] using ih
    · have h2 : cacheDel (p :: rest) k = p :: cacheDel rest k := by
        simp [cacheDel, List.filter_cons, h]
      rw [h2]
      show (match cacheGet (cacheDel rest k) k with
        | some v2 => some v2
        | none => if p.1 = k then some p.2 else none) = none
      rw [ih, if_neg h]

/-- `resetPassword`'s input validation passes for a valid email, a 6-digit
code and a new password of length at least 6. -/
theorem resetErrsNil (email code newPw : Str) (hve : validEmail email = true)
    (hc : code.length = 6) (hnp : 6 ≤ newPw.length) :
    ((if validEmail email = false then [strL "邮箱格式不合法"] else []) ++
     (if code = [] ∨ code.length ≠ 6 then [strL "验证码格式错误（6位数字）"] else []) ++
     (if newPw = [] ∨ newPw.length < 6 then [strL "新密码长度不能少于6位"] else [])) = [] := by
  have hc0 : code ≠ [] := by intro h; rw [h] at hc; simp at hc
  have hn0 : newPw ≠ [] := by intro h; rw [h] at hnp; simp at hnp
  have hn6 : ¬ newPw.length < 6 := by omega
  rw [hve]
  simp [hc, hc0, hn0, hn6]

/-- A consume against an absent cache entry fails with the CodeNotFound
message and changes nothing. -/
theorem resetPassword_notfound (cipher : Str → Option Nat → Str → Str) (canon : Str → Str)
    (db : Db) (cache : Cache) (now : Nat) (rSalt : Str) (email code newPw : Str)
    (hve : validEmail email = true) (hc : code.length = 6) (hnp : 6 ≤ newPw.length)
    (hget : cacheGet cache (strL "reset_" ++ email) = none) :
    resetPassword cipher canon db cache now rSalt email code newPw =
      (.error (strL "验证码已过期或未发送，请重新获取"), cache, db) := by
  simp only [resetPassword]
  rw [if_pos (resetErrsNil email code newPw hve hc hnp)]
  simp only [hget]

/-! ## The claims -/

/-- C1. The claim says `refreshToken` on a token that is invalid solely
because it is expired succeeds if and only if now is within 60 seconds of
the recorded expiry. The code violates the only-if direction: the expiry is
recovered by regex from the prose error message, the capture carries the
trailing full-width `）`, `new Date` on it is an Invalid Date, and the
`now > NaN` comparison is false, so the grace-window rejection is
unreachable. Concretely: `tok0` (issued at 0, expiry instant 86400000 ms)
verifies as expired at `t = 90000000` ms, one hour — far beyond 60 s — past
expiry, yet `refreshToken` succeeds and returns `tokNew0` with a fresh
24-hour expiry. -/
theorem c1_refresh_succeeds_past_grace_window :
    generateToken cfg0 (.vObj [(strL "user_id", .pNum 1)]) 0 = .ok (.jwt tok0) ∧
    verifyToken cfg0 (.tokStr false (.jwt tok0)) 90000000 =
      .invalid (strL "expired")
        (strL "Token已过期（过期时间：" ++ dateToString 86400000 ++ strL "）") ∧
    86400000 + 60 * 1000 < 90000000 ∧
    refreshToken cfg0 (.tokStr false (.jwt tok0)) [] 90000000 = .refreshed (.jwt tokNew0) := by
  refine ⟨by decide, by decide, by decide, by decide⟩

/-- C2. The claim says login against a disabled account with correct
credentials fails with AccountDisabled and never succeeds. The code
violates it: `user_status` is the ENUM STRING `'0'` while `loginUser`
checks `user_status === 0` against the NUMBER `0`, which strict equality
never satisfies, so the disabled branch is unreachable and the login
returns success. -/
theorem c2_disabled_account_login_succeeds :
    jsStrictEq (JSPrim.pStr (strL "0")) (.pNum 0) = false ∧
    bcCompareSync cipherHead canonFix (strL "admin123") hashAdmin = .ok true ∧
    loginUser cipherHead canonFix dbDisabled [] (strL "admin") (strL "admin123") =
      .ok ⟨1, none⟩ := by
  refine ⟨by decide, by decide, by decide⟩

/-- C3. The claim (and the function's own error message) says issuance
fails for an empty claims map. The code violates it: the guard
`!payload || typeof payload !== 'object' || Array.isArray(payload)` does
not reject `{}` — an empty object is truthy — so `generateToken({})`
returns a signed token carrying only the standard fields. -/
theorem c3_empty_claims_token_issued :
    jsFalsy (JSVal.vObj []) = false ∧
    generateToken cfg0 (.vObj []) 0 = .ok (.jwt tokEmpty0) := by
  refine ⟨by decide, by decide⟩

/-- C4 (amended). Issuing a verification code for a registered email draws
`Math.floor(100000 + Math.random() * 900000)` — a value in 100000–999999,
always six digits with no leading zero — renders it in decimal, stores it
under `reset_<email>` with expiry now + 5 minutes, mails it, and the stored
binding wins every lookup of that key, overwriting any prior live code. -/
theorem c4_issue_code_range_and_store (db : Db) (cache : Cache) (q : ℚ) (nowMs : Nat)
    (email : Str) (u : UserRow)
    (h0 : 0 ≤ q) (h1 : q < 1) (hve : validEmail email = true)
    (hfind : findByEmail db email = some u) :
    100000 ≤ verifyCodeNum q ∧ verifyCodeNum q ≤ 999999 ∧
    generateVerifyCode q = natToStr (verifyCodeNum q) ∧
    forgetPassword db cache q nowMs true email =
      (.ok ⟨strL "验证码已发送至您的邮箱，请查收"⟩,
       cacheSet cache (strL "reset_" ++ email)
         ⟨generateVerifyCode q, nowMs + 5 * 60 * 1000, u.user_id⟩,
       [⟨email, generateVerifyCode q⟩]) ∧
    cacheGet
      (cacheSet cache (strL "reset_" ++ email)
        ⟨generateVerifyCode q, nowMs + 5 * 60 * 1000, u.user_id⟩)
      (strL "reset_" ++ email) =
      some ⟨generateVerifyCode q, nowMs + 5 * 60 * 1000, u.user_id⟩ := by
  obtain ⟨hlb, hub⟩ := verifyCodeNum_bounds q h0 h1
  refine ⟨hlb, hub, rfl, ?_, cacheGet_set _ _ _⟩
  simp only [forgetPassword]
  rw [hve]
  rw [if_neg (by simp)]
  simp only [hfind]
  rw [if_pos trivial]

/-- C4 witness: the draw `q = 0` issues code 100000 for `a@b.com`. -/
theorem c4_issue_code_at_zero_draw :
    100000 ≤ verifyCodeNum 0 ∧ verifyCodeNum 0 ≤ 999999 ∧
    generateVerifyCode 0 = natToStr (verifyCodeNum 0) ∧
    forgetPassword dbBob [] 0 1000 true (strL "a@b.com") =
      (.ok ⟨strL "验证码已发送至您的邮箱，请查收"⟩,
       cacheSet [] (strL "reset_" ++ strL "a@b.com")
         ⟨generateVerifyCode 0, 1000 + 5 * 60 * 1000, 1⟩,
       [⟨strL "a@b.com", generateVerifyCode 0⟩]) ∧
    cacheGet
      (cacheSet [] (strL "reset_" ++ strL "a@b.com")
        ⟨generateVerifyCode 0, 1000 + 5 * 60 * 1000, 1⟩)
      (strL "reset_" ++ strL "a@b.com") =
      some ⟨generateVerifyCode 0, 1000 + 5 * 60 * 1000, 1⟩ :=
  c4_issue_code_range_and_store dbBob [] 0 1000 (strL "a@b.com")
    ⟨1, strL "bob", hashBob, strL "a@b.com", .pStr (strL "1")⟩
    (by norm_num) (by norm_num) (by decide) (by decide)

/-- C4 counterexample: the claim's range 000000–999999 is wrong — no draw
`q ∈ [0, 1)` can produce the zero-padded code `000000` (nothing below
100000 is reachable). -/
theorem c4_code_000000_unreachable :
    ¬ ∃ q : ℚ, 0 ≤ q ∧ q < 1 ∧ generateVerifyCode q = strL "000000" := by
  rintro ⟨q, h0, h1, heq⟩
  have hb := (verifyCodeNum_bounds q h0 h1).1
  have hrt : digsVal (generateVerifyCode q) = verifyCodeNum q := digsVal_natToStr _
  rw [heq] at hrt
  have hz : digsVal (strL "000000") = 0 := by decide
  omega

/-- C5. A consume with a wrong submitted code while the entry is live fails
with the mismatch error and leaves the cache and database untouched, so a
later consume with the right code within the window succeeds. -/
theorem c5_mismatch_preserves_entry (cipher : Str → Option Nat → Str → Str) (canon : Str → Str)
    (db : Db) (cache : Cache) (now1 now2 : Nat) (rSalt : Str)
    (email wrong newPw : Str) (e : CacheEntry) (u : UserRow)
    (hve : validEmail email = true)
    (hw6 : wrong.length = 6) (he6 : e.code.length = 6) (hnp : 6 ≤ newPw.length)
    (hget : cacheGet cache (strL "reset_" ++ email) = some e)
    (hnx1 : ¬ e.expireTime < now1) (hne : e.code ≠ wrong)
    (hnx2 : ¬ e.expireTime < now2)
    (hu : findById db e.userId = some u) :
    resetPassword cipher canon db cache now1 rSalt email wrong newPw =
      (.error (strL "验证码错误，请重新输入"), cache, db) ∧
    (resetPassword cipher canon db cache now2 rSalt email e.code newPw).1 =
      .ok ⟨strL "密码重置成功，请使用新密码登录"⟩ := by
  constructor
  · simp only [resetPassword]
    rw [if_pos (resetErrsNil email wrong newPw hve hw6 hnp)]
    simp only [hget]
    rw [if_neg hnx1, if_pos hne]
  · simp only [resetPassword]
    rw [if_pos (resetErrsNil email e.code newPw hve he6 hnp)]
    simp only [hget]
    rw [if_neg hnx2, if_neg (fun hh => hh rfl)]
    simp only [hu, encryptPassword_isOk]

/-- C5 witness: submitting 654321 against the live code 123456 fails with
the mismatch error and retains the entry; 123456 then succeeds. -/
theorem c5_concrete_retry :
    resetPassword cipherHead canonFix dbBob cacheBob 1000 (List.replicate 22 'b')
        (strL "a@b.com") (strL "654321") (strL "newpass1") =
      (.error (strL "验证码错误，请重新输入"), cacheBob, dbBob) ∧
    (resetPassword cipherHead canonFix dbBob cacheBob 2000 (List.replicate 22 'b')
        (strL "a@b.com") (strL "123456") (strL "newpass1")).1 =
      .ok ⟨strL "密码重置成功，请使用新密码登录"⟩ :=
  c5_mismatch_preserves_entry cipherHead canonFix dbBob cacheBob 1000 2000
    (List.replicate 22 'b') (strL "a@b.com") (strL "654321") (strL "newpass1")
    ⟨strL "123456", 301000, 1⟩ ⟨1, strL "bob", hashBob, strL "a@b.com", .pStr (strL "1")⟩
    (by decide) (by decide) (by decide) (by decide) (by decide) (by decide) (by decide)
    (by decide) (by decide)

/-- C6. A cache entry is deleted exactly on successful consumption or on
expiry detection: a successful consume deletes the entry (so the next
consume fails with CodeNotFound, whatever the database holds then), and a
consume attempted after the expiry instant deletes the entry and fails with
CodeExpired, after which consuming again fails with CodeNotFound. -/
theorem c6_code_single_use_and_expiry (cipher : Str → Option Nat → Str → Str)
    (canon : Str → Str) (db : Db) (cache : Cache) (now1 now2 now3 now4 : Nat) (rSalt : Str)
    (email newPw : Str) (e : CacheEntry) (u : UserRow)
    (hve : validEmail email = true)
    (he6 : e.code.length = 6) (hnp : 6 ≤ newPw.length)
    (hget : cacheGet cache (strL "reset_" ++ email) = some e)
    (hnx1 : ¬ e.expireTime < now1)
    (hexp3 : e.expireTime < now3)
    (hu : findById db e.userId = some u) :
    (∃ d : Str,
      resetPassword cipher canon db cache now1 rSalt email e.code newPw =
        (.ok ⟨strL "密码重置成功，请使用新密码登录"⟩,
         cacheDel cache (strL "reset_" ++ email),
         db.map fun v => if v.user_id = e.userId then { v with user_password := d } else v)) ∧
    (∀ db2 : Db,
      resetPassword cipher canon db2 (cacheDel cache (strL "reset_" ++ email)) now2 rSalt
          email e.code newPw =
        (.error (strL "验证码已过期或未发送，请重新获取"),
         cacheDel cache (strL "reset_" ++ email), db2)) ∧
    resetPassword cipher canon db cache now3 rSalt email e.code newPw =
      (.error (strL "验证码已过期，请重新获取"), cacheDel cache (strL "reset_" ++ email), db) ∧
    resetPassword cipher canon db (cacheDel cache (strL "reset_" ++ email)) now4 rSalt
        email e.code newPw =
      (.error (strL "验证码已过期或未发送，请重新获取"),
       cacheDel cache (strL "reset_" ++ email), db) := by
  refine ⟨⟨strL "$2a$10$" ++
      (canon (rSalt.take 22) ++ cipher (newPw ++ [Char.ofNat 0]) (some 10) (rSalt.take 22)), ?_⟩,
    ?_, ?_, ?_⟩
  · simp only [resetPassword]
    rw [if_pos (resetErrsNil email e.code newPw hve he6 hnp)]
    simp only [hget]
    rw [if_neg hnx1, if_neg (fun hh => hh rfl)]
    simp only [hu, encryptPassword_isOk]
  · intro db2
    exact resetPassword_notfound cipher canon db2 _ now2 rSalt email e.code newPw hve he6 hnp
      (cacheGet_del cache _)
  · simp only [resetPassword]
    rw [if_pos (resetErrsNil email e.code newPw hve he6 hnp)]
    simp only [hget]
    rw [if_pos hexp3]
  · exact resetPassword_notfound cipher canon db _ now4 rSalt email e.code newPw hve he6 hnp
      (cacheGet_del cache _)

/-- C6 witness: consuming code 123456 at `t = 1000` succeeds and burns the
entry; at `t = 302000` (past the 301000 expiry) it fails with CodeExpired
and deletes; either way the follow-up consume fails with CodeNotFound. -/
theorem c6_concrete_single_use :
    (∃ d : Str,
      resetPassword cipherHead canonFix dbBob cacheBob 1000 (List.replicate 22 'b')
          (strL "a@b.com") (strL "123456") (strL "newpass1") =
        (.ok ⟨strL "密码重置成功，请使用新密码登录"⟩,
         cacheDel cacheBob (strL "reset_" ++ strL "a@b.com"),
         dbBob.map fun v => if v.user_id = 1 then { v with user_password := d } else v)) ∧
    (∀ db2 : Db,
      resetPassword cipherHead canonFix db2
          (cacheDel cacheBob (strL "reset_" ++ strL "a@b.com")) 2000 (List.replicate 22 'b')
          (strL "a@b.com") (strL "123456") (strL "newpass1") =
        (.error (strL "验证码已过期或未发送，请重新获取"),
         cacheDel cacheBob (strL "reset_" ++ strL "a@b.com"), db2)) ∧
    resetPassword cipherHead canonFix dbBob cacheBob 302000 (List.replicate 22 'b')
        (strL "a@b.com") (strL "123456") (strL "newpass1") =
      (.error (strL "验证码已过期，请重新获取"),
       cacheDel cacheBob (strL "reset_" ++ strL "a@b.com"), dbBob) ∧
    resetPassword cipherHead canonFix dbBob
        (cacheDel cacheBob (strL "reset_" ++ strL "a@b.com")) 3000 (List.replicate 22 'b')
        (strL "a@b.com") (strL "123456") (strL "newpass1") =
      (.error (strL "验证码已过期或未发送，请重新获取"),
       cacheDel cacheBob (strL "reset_" ++ strL "a@b.com"), dbBob) :=
  c6_code_single_use_and_expiry cipherHead canonFix dbBob cacheBob 1000 2000 302000 3000
    (List.replicate 22 'b') (strL "a@b.com") (strL "newpass1")
    ⟨strL "123456", 301000, 1⟩ ⟨1, strL "bob", hashBob, strL "a@b.com", .pStr (strL "1")⟩
    (by decide) (by decide) (by decide) (by decide) (by decide) (by decide) (by decide)

/-- C7 (amended). `verify(p, d)` returns false and never throws for every
malformed digest whose length differs from 60; a 60-character string whose
salt section does not parse instead makes the underlying bcrypt salt
validation throw (see the counterexample). -/
theorem c7_verify_short_malformed_false (cipher : Str → Option Nat → Str → Str)
    (canon : Str → Str) (p d : Str) (hd : d.length ≠ 60) :
    verifyPassword cipher canon p d = .ok false := by
  unfold verifyPassword bcCompareSync
  rw [if_pos hd]

/-- C7 witness: a two-character digest yields false without throwing. -/
theorem c7_concrete_short_digest :
    verifyPassword cipherFix canonFix (strL "p") (strL "xy") = .ok false :=
  c7_verify_short_malformed_false cipherFix canonFix (strL "p") (strL "xy") (by decide)

/-- C7 counterexample: the claim's "never throws" is wrong — sixty `x`
characters are a malformed digest on which `verify` throws (bcryptjs
`Invalid salt version` propagates out of `compareSync`). -/
theorem c7_sixty_char_malformed_throws :
    verifyPassword cipherFix canonFix (strL "p") (List.replicate 60 'x') =
      .error (strL "Invalid salt version") := by decide

/-- C8. `forgetPassword` returns the identical "code sent" success whether
or not the email is registered; for an unregistered email no cache entry is
written and no mail is attempted, yet the returned value equals the
registered case's. -/
theorem c8_forgot_password_non_enumeration (db : Db) (cache : Cache) (q : ℚ) (nowMs : Nat)
    (e1 e2 : Str) (u : UserRow)
    (hv1 : validEmail e1 = true) (hn : findByEmail db e1 = none)
    (hv2 : validEmail e2 = true) (hu : findByEmail db e2 = some u) :
    forgetPassword db cache q nowMs true e1 =
      (.ok ⟨strL "验证码已发送至您的邮箱，请查收"⟩, cache, []) ∧
    (forgetPassword db cache q nowMs true e1).1 =
      (forgetPassword db cache q nowMs true e2).1 := by
  have hr1 : forgetPassword db cache q nowMs true e1 =
      (.ok ⟨strL "验证码已发送至您的邮箱，请查收"⟩, cache, []) := by
    simp only [forgetPassword]
    rw [hv1]
    rw [if_neg (by simp)]
    simp only [hn]
  have hr2 : (forgetPassword db cache q nowMs true e2).1 =
      .ok ⟨strL "验证码已发送至您的邮箱，请查收"⟩ := by
    simp only [forgetPassword]
    rw [hv2]
    rw [if_neg (by simp)]
    simp only [hu]
    rw [if_pos trivial]
  exact ⟨hr1, by rw [hr1, hr2]⟩

/-- C8 witness: `no@b.com` (unregistered) and `a@b.com` (registered) get
the same success value; the unregistered call writes nothing and mails
nothing. -/
theorem c8_concrete_non_enumeration :
    forgetPassword dbBob [] 0 1000 true (strL "no@b.com") =
      (.ok ⟨strL "验证码已发送至您的邮箱，请查收"⟩, [], []) ∧
    (forgetPassword dbBob [] 0 1000 true (strL "no@b.com")).1 =
      (forgetPassword dbBob [] 0 1000 true (strL "a@b.com")).1 :=
  c8_forgot_password_non_enumeration dbBob [] 0 1000 (strL "no@b.com") (strL "a@b.com")
    ⟨1, strL "bob", hashBob, strL "a@b.com", .pStr (strL "1")⟩
    (by decide) (by decide) (by decide) (by decide)

/-- C9. Login with an unknown identifier and login with a known identifier
but a wrong password throw the same error value — the same kind with the
same message — so the two cases are indistinguishable to the caller. -/
theorem c9_login_failures_indistinguishable (cipher : Str → Option Nat → Str → Str)
    (canon : Str → Str) (db : Db) (roles : List (Nat × Nat))
    (id1 pw1 id2 pw2 : Str) (u : UserRow) (s : Str)
    (h1a : id1 ≠ []) (h1b : pw1 ≠ []) (hf1 : findByNameOrEmail db id1 = none)
    (h2a : id2 ≠ []) (h2b : pw2 ≠ []) (hf2 : findByNameOrEmail db id2 = some u)
    (hstat : u.user_status = .pStr s)
    (hcmp : bcCompareSync cipher canon pw2 u.user_password = .ok false) :
    loginUser cipher canon db roles id1 pw1 = .error (strL "用户名或密码错误") ∧
    loginUser cipher canon db roles id2 pw2 = .error (strL "用户名或密码错误") := by
  constructor
  · simp only [loginUser]
    rw [if_neg (by simp [h1a, h1b])]
    simp only [hf1]
  · simp only [loginUser]
    rw [if_neg (by simp [h2a, h2b])]
    simp only [hf2]
    rw [hstat]
    rw [if_neg (by simp [jsStrictEq])]
    simp only [hcmp]

/-- C9 witness: `login("nobody", "x")` and `login("bob", "wrongpw")` return
the identical error. -/
theorem c9_concrete_same_error :
    loginUser cipherHead canonFix dbBob [] (strL "nobody") (strL "x") =
      .error (strL "用户名或密码错误") ∧
    loginUser cipherHead canonFix dbBob [] (strL "bob") (strL "wrongpw") =
      .error (strL "用户名或密码错误") :=
  c9_login_failures_indistinguishable cipherHead canonFix dbBob []
    (strL "nobody") (strL "x") (strL "bob") (strL "wrongpw")
    ⟨1, strL "bob", hashBob, strL "a@b.com", .pStr (strL "1")⟩ (strL "1")
    (by decide) (by decide) (by decide) (by decide) (by decide) (by decide)
    (by decide) (by decide)

/-- C10. For every password, hashing with a fresh canonical salt yields a
digest that `verify` accepts, and two hashes of the same plaintext under
distinct salt draws yield distinct digests (the salt is embedded verbatim
in the digest). -/
theorem c10_verify_roundtrip_fresh_salt (cipher : Str → Option Nat → Str → Str)
    (canon : Str → Str) (p r1 r2 : Str)
    (hr1 : r1.length = 22) (hr2 : r2.length = 22)
    (hc1 : canon r1 = r1) (hc2 : canon r2 = r2)
    (hC1 : (cipher (p ++ [Char.ofNat 0]) (some 10) r1).length = 31)
    (hC2 : (cipher (p ++ [Char.ofNat 0]) (some 10) r2).length = 31) :
    ∃ d1 d2 : Str,
      encryptPassword cipher canon p r1 = .ok d1 ∧
      encryptPassword cipher canon p r2 = .ok d2 ∧
      verifyPassword cipher canon p d1 = .ok true ∧
      verifyPassword cipher canon p d2 = .ok true ∧
      (r1 ≠ r2 → d1 ≠ d2) := by
  refine ⟨_, _, encryptPassword_eq cipher canon p r1 hr1 hc1,
    encryptPassword_eq cipher canon p r2 hr2 hc2,
    verifyPassword_of_digest cipher canon p r1 hr1 hc1 hC1,
    verifyPassword_of_digest cipher canon p r2 hr2 hc2 hC2, ?_⟩
  intro hne heq
  have h1 : r1 ++ cipher (p ++ [Char.ofNat 0]) (some 10) r1 =
      r2 ++ cipher (p ++ [Char.ofNat 0]) (some 10) r2 :=
    List.append_cancel_left heq
  exact hne ((List.append_inj h1 (hr1.trans hr2.symm)).1)

/-- C10 witness: the all-`a` and all-`b` salt draws on password `pw`. -/
theorem c10_concrete_digests :
    ∃ d1 d2 : Str,
      encryptPassword cipherFix canonFix (strL "pw") (List.replicate 22 'a') = .ok d1 ∧
      encryptPassword cipherFix canonFix (strL "pw") (List.replicate 22 'b') = .ok d2 ∧
      verifyPassword cipherFix canonFix (strL "pw") d1 = .ok true ∧
      verifyPassword cipherFix canonFix (strL "pw") d2 = .ok true ∧
      (List.replicate 22 'a' ≠ List.replicate 22 'b' → d1 ≠ d2) :=
  c10_verify_roundtrip_fresh_salt cipherFix canonFix (strL "pw")
    (List.replicate 22 'a') (List.replicate 22 'b')
    (by decide) (by decide) (by decide) (by decide) (by decide) (by decide)

end FwSpec
